import Mathlib

/-!
Verification of the CallSense conversation-state core
(src/ai_support_agent: utils/models.py, components/state_manager.py,
components/orchestrator.py, components/transcript_storage.py).

The Python code is shallowly embedded as follows:
- pydantic models become Lean structures (datetimes become Nat instants,
  uuid-defaulted fields become explicit parameters);
- the StateManager becomes a value-passing state machine: each mutating
  method maps the old manager value to a new manager value, together with
  the observable side events (listener notifications, scheduled saves);
- Python exceptions become Except values: a collaborator that may raise
  is a function into Except String _, and a try/except block becomes a
  match on that value;
- file I/O performed by the persistence collaborator is abstracted as an
  oracle carried inside the collaborator value (the outcome of the write
  and the generated filename), since the claims only concern how the core
  reacts to success or failure of the write, not the bytes written;
- Python object aliasing (pydantic model_copy sharing nested lists) is
  modelled separately by a reference/heap model, used for the snapshot
  isolation claim where aliasing is exactly the point.
-/

namespace CallSense

/-- Speaker enum from utils/models.py (CUSTOMER, AGENT, SPEAKER). -/
inductive Speaker where
  | customer
  | agent
  | speaker
deriving DecidableEq, Repr

/-- TranscriptEntry model from utils/models.py: speaker, text, timestamp
(datetime modelled as a Nat instant). -/
structure TranscriptEntry where
  speaker : Speaker
  text : String
  timestamp : Nat
deriving DecidableEq, Repr

/-- Task model from utils/models.py. The uuid-defaulted id and the
datetime fields are modelled as explicit data (Nat instants); every other
field keeps the default written in the source. -/
structure Task where
  id : String
  customer_name : Option String := some "Customer"
  order_number : Option String := none
  order_status : Option String := none
  issue_description : String
  description : String
  generated_plan : List String := ["Review customer request"]
  task_type : String := "rag"
  status : String := "pending"
  result : Option String := none
  created_at : Nat := 0
  updated_at : Option Nat := none
  issue_category : String := "General Inquiry"
  urgency_level : String := "Medium"
  operator_instructions : String := "Review customer request and provide assistance"
  verification_points : List String := []
  suggested_response : String := "Thank you for contacting us. How can I help you today?"
deriving DecidableEq, Repr

/-- AppState model from utils/models.py: conversation id, transcript,
current task, task history. -/
structure AppState where
  conversation_id : String
  transcript : List TranscriptEntry := []
  current_task : Option Task := none
  task_history : List Task := []
  created_at : Nat := 0
deriving DecidableEq, Repr

/-- A listener registered with StateManager.add_listener. The source
distinguishes coroutine functions (skipped by the sync notifier) from
plain callables; a plain callable may raise, modelled by Except. -/
structure Listener where
  isCoroutineFunction : Bool
  call : AppState → Except String Unit

/-- Observable outcome of one iteration of the notification loop in
StateManager.notify step: the listener was skipped (coroutine function),
ran normally, or raised and the exception was caught and logged. -/
inductive NotifyEvent where
  | skipped
  | ok
  | logged (msg : String)
deriving DecidableEq, Repr

/-- True when the event records an actual invocation of the listener
(either a normal return or a caught exception), false for a skip. -/
def NotifyEvent.isInvocation : NotifyEvent → Bool
  | .skipped => false
  | .ok => true
  | .logged _ => true

/-- One iteration of the loop body of the sync notifier in
state_manager.py: coroutine listeners are skipped, other listeners are
called with the state and any exception is caught and logged. -/
def notifyOne (s : AppState) (l : Listener) : NotifyEvent :=
  if l.isCoroutineFunction then
    NotifyEvent.skipped
  else
    match l.call s with
    | Except.ok _ => NotifyEvent.ok
    | Except.error e => NotifyEvent.logged ("Error notifying listener: " ++ e)

/-- The notification loop of the sync notifier in state_manager.py,
written as the for loop in the source: it walks the listener list front
to back and produces one event per listener. It is total: no listener
outcome can abort it. -/
def notifyListenersSync (listeners : List Listener) (s : AppState) : List NotifyEvent :=
  match listeners with
  | [] => []
  | l :: rest => notifyOne s l :: notifyListenersSync rest s

/-- The persistence collaborator (TranscriptStorageService in
transcript_storage.py). File I/O is abstracted: makeFilename stands for
get_transcript_filename (the timestamp part folded into the function) and
writeOutcome stands for the result of the aiofiles write. -/
structure TranscriptStorage where
  makeFilename : String → String
  writeOutcome : Except String Unit

/-- TranscriptStorageService.save_transcript: build the filename, write
the file; on success return the filename, on failure re-raise. -/
def TranscriptStorage.save_transcript (ts : TranscriptStorage)
    (conversation_id : String) (_transcript : List TranscriptEntry) :
    Except String String :=
  let filename := ts.makeFilename conversation_id
  match ts.writeOutcome with
  | Except.ok _ => Except.ok filename
  | Except.error e => Except.error e

/-- TranscriptStorageService.auto_save_transcript: return none on an
empty transcript, otherwise try save_transcript and catch any error
(logged, returning none). -/
def TranscriptStorage.auto_save_transcript (ts : TranscriptStorage)
    (state : AppState) : Option String :=
  if state.transcript = [] then none
  else
    match ts.save_transcript state.conversation_id state.transcript with
    | Except.ok filename => some filename
    | Except.error _ => none

/-- The StateManager from state_manager.py: the owned AppState, the
registered listeners, the optional persistence collaborator, and the
auto-save threshold (5 in the source constructor). -/
structure StateManager where
  state : AppState
  listeners : List Listener := []
  transcript_storage : Option TranscriptStorage := none
  auto_save_threshold : Nat := 5

/-- Result of a mutating StateManager call: the new manager value plus
the listener events the call produced. -/
structure MutateResult where
  manager : StateManager
  events : List NotifyEvent

/-- StateManager.update_task: set current_task to the task; if the task
status is completed or failed, also append it to task_history and clear
current_task; then notify listeners with the resulting state. -/
def StateManager.update_task (m : StateManager) (task : Task) : MutateResult :=
  let st1 := { m.state with current_task := some task }
  let st2 :=
    if task.status = "completed" ∨ task.status = "failed" then
      { st1 with
          task_history := st1.task_history ++ [task]
          current_task := none }
    else st1
  { manager := { m with state := st2 }
    events := notifyListenersSync m.listeners st2 }

/-- Result of StateManager.add_transcript_entry: the new manager value,
whether an auto-save background task was scheduled (asyncio.create_task
in the source — scheduled, not awaited), and the listener events. -/
structure AddResult where
  manager : StateManager
  autoSaveScheduled : Bool
  events : List NotifyEvent

/-- StateManager.add_transcript_entry: append the entry to the
transcript; if a persistence collaborator is configured and the new
transcript length is a multiple of the auto-save threshold, schedule an
auto-save background task (without running it inline); then notify the
listeners with the resulting state. -/
def StateManager.add_transcript_entry (m : StateManager)
    (entry : TranscriptEntry) : AddResult :=
  let st := { m.state with transcript := m.state.transcript ++ [entry] }
  let scheduled :=
    m.transcript_storage.isSome &&
      st.transcript.length % m.auto_save_threshold == 0
  { manager := { m with state := st }
    autoSaveScheduled := scheduled
    events := notifyListenersSync m.listeners st }

/-- The body of StateManager private auto-save helper: when a storage
collaborator is configured, delegate to its auto_save_transcript (which
itself catches write failures); the surrounding try/except catches any
remaining exception, so the whole computation is total and returns the
optional filename that was printed. The manager state is read, never
written. -/
def StateManager.auto_save_transcript_run (m : StateManager) : Option String :=
  match m.transcript_storage with
  | none => none
  | some ts => ts.auto_save_transcript m.state

/-- StateManager.save_current_transcript: return none when no storage
collaborator is configured; otherwise call save_transcript with the
conversation id and the transcript, returning the filename, and catch
any exception (logged, returning none). There is no empty-transcript
check on this path in the source. -/
def StateManager.save_current_transcript (m : StateManager) : Option String :=
  match m.transcript_storage with
  | none => none
  | some ts =>
    match ts.save_transcript m.state.conversation_id m.state.transcript with
    | Except.ok filename => some filename
    | Except.error _ => none

/-- StateManager.get_transcript: return a copy of the transcript list.
Because the source copies the list, the caller receives a value that no
later mutation reaches; in the value model this is the list itself. -/
def StateManager.get_transcript (m : StateManager) : List TranscriptEntry :=
  m.state.transcript

/-- StateManager.clear_transcript: clear the transcript in place, mint a
new conversation id, notify listeners. The fresh uuid is passed in as
data. -/
def StateManager.clear_transcript (m : StateManager) (newId : String) :
    MutateResult :=
  let st := { m.state with transcript := [], conversation_id := newId }
  { manager := { m with state := st }
    events := notifyListenersSync m.listeners st }

/-- The Orchestrator from orchestrator.py: its two resolver
collaborators. RAGService.search consumes the task description;
AIAgent.execute_task consumes the whole task. Either may raise, hence
Except. -/
structure Orchestrator where
  rag_search : String → Except String String
  agent_execute : Task → Except String String

/-- Result of Orchestrator.route_task: the returned string or the
re-raised error, the final task value, the tasks passed to update_task
in call order, the arguments of every rag_search call and of every
agent_execute call, and the state manager after the updates. -/
structure RouteResult where
  result : Except String String
  task : Task
  updates : List Task
  ragCalls : List String
  agentCalls : List Task
  manager : StateManager

/-- Orchestrator.route_task: set status processing and update_task; then
dispatch on task_type: rag calls rag_search with the description, agent
calls agent_execute with the task, anything else yields the fixed
result without dispatching; on success set status completed with the
result and update_task, returning the result; on a resolver exception
set status failed with a string embedding the error, update_task, and
re-raise. -/
def Orchestrator.route_task (o : Orchestrator) (m : StateManager)
    (task : Task) : RouteResult :=
  let task1 := { task with status := "processing" }
  let m1 := (StateManager.update_task m task1).manager
  let dispatched : Except String String × List String × List Task :=
    if task1.task_type = "rag" then
      (o.rag_search task1.description, [task1.description], [])
    else if task1.task_type = "agent" then
      (o.agent_execute task1, [], [task1])
    else
      (Except.ok "Unknown task type", [], [])
  match dispatched with
  | (Except.ok r, rcs, acs) =>
    let task2 := { task1 with status := "completed", result := some r }
    let m2 := (StateManager.update_task m1 task2).manager
    { result := Except.ok r
      task := task2
      updates := [task1, task2]
      ragCalls := rcs
      agentCalls := acs
      manager := m2 }
  | (Except.error e, rcs, acs) =>
    let task2 := { task1 with status := "failed", result := some ("Error: " ++ e) }
    let m2 := (StateManager.update_task m1 task2).manager
    { result := Except.error e
      task := task2
      updates := [task1, task2]
      ragCalls := rcs
      agentCalls := acs
      manager := m2 }

/-!
Reference model for aliasing. Python objects hold references to shared
mutable lists; pydantic model_copy without deep=true copies the object
fields but shares every nested list. To reason about snapshot isolation
the two list-valued fields of AppState are placed in a heap and the state
object holds indices into it; model_copy copies the object (so the
indices) while the heap cells stay shared.
-/

/-- Heap of list cells: the transcript lists and the task-history lists
live here, addressed by index. -/
structure RefHeap where
  tlists : List (List TranscriptEntry)
  hlists : List (List Task)
deriving DecidableEq, Repr

/-- AppState as a Python object: scalar fields inline, the two mutable
lists as references into the heap. -/
structure RefAppState where
  conversation_id : String
  transcriptRef : Nat
  current_task : Option Task
  taskHistoryRef : Nat
deriving DecidableEq, Repr

/-- The transcript a state object sees through its reference under a
given heap. -/
def RefHeap.transcriptView (h : RefHeap) (s : RefAppState) :
    List TranscriptEntry :=
  h.tlists.getD s.transcriptRef []

/-- The task history a state object sees through its reference under a
given heap. -/
def RefHeap.historyView (h : RefHeap) (s : RefAppState) : List Task :=
  h.hlists.getD s.taskHistoryRef []

/-- StateManager in the reference model: the heap and the owned state
object. -/
structure RefStateManager where
  heap : RefHeap
  state : RefAppState
deriving DecidableEq, Repr

/-- AppState.model_copy() as called by StateManager.get_state: pydantic
copies the model fields shallowly, so the copy carries the same list
references as the original. -/
def RefAppState.model_copy (s : RefAppState) : RefAppState := s

/-- StateManager.get_state in the reference model: returns
state.model_copy(), a new object sharing the transcript and task-history
list cells with the live state. -/
def RefStateManager.get_state (m : RefStateManager) : RefAppState :=
  m.state.model_copy

/-- StateManager.get_transcript in the reference model: list.copy()
allocates a fresh list whose contents are the current cell contents; the
caller receives that plain value, unreachable from the manager. -/
def RefStateManager.get_transcript (m : RefStateManager) :
    List TranscriptEntry :=
  m.heap.transcriptView m.state

/-- StateManager.add_transcript_entry in the reference model: mutate the
transcript cell in place, appending the entry. -/
def RefStateManager.add_transcript_entry (m : RefStateManager)
    (entry : TranscriptEntry) : RefStateManager :=
  { m with
      heap := { m.heap with
        tlists := m.heap.tlists.set m.state.transcriptRef
          (m.heap.transcriptView m.state ++ [entry]) } }

/-- StateManager.clear_transcript in the reference model: clear the
transcript cell in place and mint a new conversation id on the live
state object. -/
def RefStateManager.clear_transcript (m : RefStateManager)
    (newId : String) : RefStateManager :=
  { heap := { m.heap with
      tlists := m.heap.tlists.set m.state.transcriptRef [] }
    state := { m.state with conversation_id := newId } }

/-- StateManager.update_task in the reference model: set current_task on
the live state object; when the status is terminal, append the task to
the shared task-history cell in place and clear current_task. -/
def RefStateManager.update_task (m : RefStateManager) (task : Task) :
    RefStateManager :=
  let s1 := { m.state with current_task := some task }
  if task.status = "completed" ∨ task.status = "failed" then
    { heap := { m.heap with
        hlists := m.heap.hlists.set m.state.taskHistoryRef
          (m.heap.historyView m.state ++ [task]) }
      state := { s1 with current_task := none } }
  else
    { m with state := s1 }

/-!
Shared concrete inputs for witnesses and counterexamples.
-/

/-- A sample transcript entry. -/
def sampleEntry : TranscriptEntry :=
  { speaker := Speaker.customer, text := "Hi, order ORDER-12345 status?", timestamp := 0 }

/-- A freshly generated sample task (status pending, no result). -/
def sampleTask : Task :=
  { id := "t1", issue_description := "order status", description := "order status" }

/-- A sample manager with empty state and no collaborators. -/
def sampleManager : StateManager :=
  { state := { conversation_id := "conv-1" } }

/-!
Claim theorems.
-/

/-- Claim C1: update_task with a terminal-status task (completed or
failed) appends the task to task_history and leaves current_task null,
with task_history exactly one entry longer; with a non-terminal status it
sets current_task to the task and leaves task_history unchanged. -/
theorem claim_C1_update_task_terminal_behavior
    (m : StateManager) (task : Task) :
    ((task.status = "completed" ∨ task.status = "failed") →
      (m.update_task task).manager.state.current_task = none ∧
      (m.update_task task).manager.state.task_history
        = m.state.task_history ++ [task] ∧
      (m.update_task task).manager.state.task_history.length
        = m.state.task_history.length + 1) ∧
    (¬ (task.status = "completed" ∨ task.status = "failed") →
      (m.update_task task).manager.state.current_task = some task ∧
      (m.update_task task).manager.state.task_history
        = m.state.task_history) := by
  constructor
  · intro h
    rcases h with h | h <;> simp [StateManager.update_task, h]
  · intro h
    push_neg at h
    simp [StateManager.update_task, h.1, h.2]

/-- Witness for C1 at a concrete terminal update. -/
theorem claim_C1_witness :
    (({ sampleTask with status := "completed" } : Task).status = "completed" ∨
      ({ sampleTask with status := "completed" } : Task).status = "failed") ∧
    ((sampleManager.update_task { sampleTask with status := "completed" }).manager.state.current_task = none ∧
      (sampleManager.update_task { sampleTask with status := "completed" }).manager.state.task_history
        = sampleManager.state.task_history ++ [{ sampleTask with status := "completed" }] ∧
      (sampleManager.update_task { sampleTask with status := "completed" }).manager.state.task_history.length
        = sampleManager.state.task_history.length + 1) :=
  ⟨Or.inl rfl,
    (claim_C1_update_task_terminal_behavior sampleManager
      { sampleTask with status := "completed" }).1 (Or.inl rfl)⟩

/-- Claim C10: update_task validates nothing about the status string:
any status other than completed and failed — including strings outside
the four defined statuses, such as bogus — is stored unmodified as
current_task, task_history is untouched, and the call completes with the
usual listener notification on the new state. -/
theorem claim_C10_update_task_no_validation
    (m : StateManager) (task : Task)
    (h1 : task.status ≠ "completed") (h2 : task.status ≠ "failed") :
    (m.update_task task).manager.state.current_task = some task ∧
    (m.update_task task).manager.state.task_history = m.state.task_history ∧
    (m.update_task task).events
      = notifyListenersSync m.listeners
          { m.state with current_task := some task } := by
  simp [StateManager.update_task, h1, h2]

/-- Witness for C10 at the status string bogus. -/
theorem claim_C10_witness :
    (({ sampleTask with status := "bogus" } : Task).status ≠ "completed") ∧
    (({ sampleTask with status := "bogus" } : Task).status ≠ "failed") ∧
    ((sampleManager.update_task { sampleTask with status := "bogus" }).manager.state.current_task
        = some { sampleTask with status := "bogus" } ∧
      (sampleManager.update_task { sampleTask with status := "bogus" }).manager.state.task_history
        = sampleManager.state.task_history ∧
      (sampleManager.update_task { sampleTask with status := "bogus" }).events
        = notifyListenersSync sampleManager.listeners
            { sampleManager.state with
                current_task := some { sampleTask with status := "bogus" } }) :=
  ⟨by decide, by decide,
    claim_C10_update_task_no_validation sampleManager
      { sampleTask with status := "bogus" } (by decide) (by decide)⟩

/-- Claim C4: on a successful resolver call, route_task first records the
processing status through update_task, dispatches exactly once (rag type
to rag_search with the description, agent type to agent_execute with the
task), then records the completed task whose result is the resolver
return value, and returns that value. -/
theorem claim_C4_route_task_success
    (o : Orchestrator) (m : StateManager) (task : Task) (res : String)
    (h : (task.task_type = "rag" ∧
            o.rag_search task.description = Except.ok res) ∨
         (task.task_type = "agent" ∧
            o.agent_execute { task with status := "processing" }
              = Except.ok res)) :
    (o.route_task m task).updates
      = [{ task with status := "processing" },
         { task with status := "completed", result := some res }] ∧
    (o.route_task m task).task
      = { task with status := "completed", result := some res } ∧
    (o.route_task m task).result = Except.ok res ∧
    ((task.task_type = "rag" ∧
        (o.route_task m task).ragCalls = [task.description] ∧
        (o.route_task m task).agentCalls = []) ∨
     (task.task_type = "agent" ∧
        (o.route_task m task).ragCalls = [] ∧
        (o.route_task m task).agentCalls
          = [{ task with status := "processing" }])) := by
  rcases h with ⟨ht, hr⟩ | ⟨ht, hr⟩
  · refine ⟨?_, ?_, ?_, Or.inl ⟨ht, ?_, ?_⟩⟩ <;>
      simp [Orchestrator.route_task, ht, hr]
  · have hr' : o.agent_execute
        { task with task_type := "agent", status := "processing" }
        = Except.ok res := by
      rw [← ht]; exact hr
    refine ⟨?_, ?_, ?_, Or.inr ⟨ht, ?_, ?_⟩⟩ <;>
      simp [Orchestrator.route_task, ht, hr']

/-- Witness for C4 with a rag task and a resolver returning a concrete
answer. -/
theorem claim_C4_witness :
    ((sampleTask.task_type = "rag" ∧
        (Orchestrator.mk (fun _ => Except.ok "ANSWER") (fun _ => Except.ok "done")).rag_search
          sampleTask.description = Except.ok "ANSWER") ∨
      (sampleTask.task_type = "agent" ∧
        (Orchestrator.mk (fun _ => Except.ok "ANSWER") (fun _ => Except.ok "done")).agent_execute
          { sampleTask with status := "processing" } = Except.ok "ANSWER")) ∧
    ((Orchestrator.mk (fun _ => Except.ok "ANSWER") (fun _ => Except.ok "done")).route_task
        sampleManager sampleTask).result = Except.ok "ANSWER" :=
  ⟨Or.inl ⟨rfl, rfl⟩,
    (claim_C4_route_task_success
      (Orchestrator.mk (fun _ => Except.ok "ANSWER") (fun _ => Except.ok "done"))
      sampleManager sampleTask "ANSWER" (Or.inl ⟨rfl, rfl⟩)).2.2.1⟩

/-- Claim C3: when the resolver raises, route_task marks the task failed
with a result string embedding the error message, passes that task to
update_task (after the earlier processing update), and re-raises the same
error to the caller. -/
theorem claim_C3_route_task_failure
    (o : Orchestrator) (m : StateManager) (task : Task) (e : String)
    (h : (task.task_type = "rag" ∧
            o.rag_search task.description = Except.error e) ∨
         (task.task_type = "agent" ∧
            o.agent_execute { task with status := "processing" }
              = Except.error e)) :
    (o.route_task m task).task.status = "failed" ∧
    (o.route_task m task).task.result = some ("Error: " ++ e) ∧
    (o.route_task m task).updates
      = [{ task with status := "processing" }, (o.route_task m task).task] ∧
    (o.route_task m task).manager
      = (StateManager.update_task
          (StateManager.update_task m { task with status := "processing" }).manager
          (o.route_task m task).task).manager ∧
    (o.route_task m task).result = Except.error e := by
  rcases h with ⟨ht, hr⟩ | ⟨ht, hr⟩
  · simp [Orchestrator.route_task, ht, hr]
  · have hr' : o.agent_execute
        { task with task_type := "agent", status := "processing" }
        = Except.error e := by
      rw [← ht]; exact hr
    simp [Orchestrator.route_task, ht, hr']

/-- Witness for C3 with an action task whose collaborator raises a
timeout error. -/
theorem claim_C3_witness :
    ((({ sampleTask with task_type := "agent" } : Task).task_type = "rag" ∧
        (Orchestrator.mk (fun _ => Except.ok "ANSWER") (fun _ => Except.error "timeout")).rag_search
          ({ sampleTask with task_type := "agent" } : Task).description = Except.error "timeout") ∨
      (({ sampleTask with task_type := "agent" } : Task).task_type = "agent" ∧
        (Orchestrator.mk (fun _ => Except.ok "ANSWER") (fun _ => Except.error "timeout")).agent_execute
          { { sampleTask with task_type := "agent" } with status := "processing" }
          = Except.error "timeout")) ∧
    ((Orchestrator.mk (fun _ => Except.ok "ANSWER") (fun _ => Except.error "timeout")).route_task
        sampleManager { sampleTask with task_type := "agent" }).task.status = "failed" ∧
    ((Orchestrator.mk (fun _ => Except.ok "ANSWER") (fun _ => Except.error "timeout")).route_task
        sampleManager { sampleTask with task_type := "agent" }).result
      = Except.error "timeout" :=
  ⟨Or.inr ⟨rfl, rfl⟩,
    (claim_C3_route_task_failure
      (Orchestrator.mk (fun _ => Except.ok "ANSWER") (fun _ => Except.error "timeout"))
      sampleManager { sampleTask with task_type := "agent" } "timeout"
      (Or.inr ⟨rfl, rfl⟩)).1,
    (claim_C3_route_task_failure
      (Orchestrator.mk (fun _ => Except.ok "ANSWER") (fun _ => Except.error "timeout"))
      sampleManager { sampleTask with task_type := "agent" } "timeout"
      (Or.inr ⟨rfl, rfl⟩)).2.2.2.2⟩

/-- Claim C5: a task whose task_type is neither rag nor agent dispatches
to no resolver, completes normally, and yields the fixed sentinel result
Unknown task type. -/
theorem claim_C5_route_task_unknown_type
    (o : Orchestrator) (m : StateManager) (task : Task)
    (h1 : task.task_type ≠ "rag") (h2 : task.task_type ≠ "agent") :
    (o.route_task m task).ragCalls = [] ∧
    (o.route_task m task).agentCalls = [] ∧
    (o.route_task m task).result = Except.ok "Unknown task type" ∧
    (o.route_task m task).task.result = some "Unknown task type" := by
  simp [Orchestrator.route_task, h1, h2]

/-- Witness for C5 at a malformed task type. -/
theorem claim_C5_witness :
    (({ sampleTask with task_type := "bogus" } : Task).task_type ≠ "rag") ∧
    (({ sampleTask with task_type := "bogus" } : Task).task_type ≠ "agent") ∧
    ((Orchestrator.mk (fun _ => Except.ok "ANSWER") (fun _ => Except.ok "done")).route_task
        sampleManager { sampleTask with task_type := "bogus" }).result
      = Except.ok "Unknown task type" :=
  ⟨by decide, by decide,
    (claim_C5_route_task_unknown_type
      (Orchestrator.mk (fun _ => Except.ok "ANSWER") (fun _ => Except.ok "done"))
      sampleManager { sampleTask with task_type := "bogus" }
      (by decide) (by decide)).2.2.1⟩

/-- Claim C6: a task that enters route_task with status pending and no
result satisfies, at each of the two update_task calls made during
routing, that the result is non-null exactly when the status is terminal,
and the statuses passed to update_task are processing then a terminal
status — the lifecycle pending, processing, then completed or failed,
never going back. -/
theorem claim_C6_task_lifecycle
    (o : Orchestrator) (m : StateManager) (task : Task)
    (h1 : task.status = "pending") (h2 : task.result = none) :
    (∀ u ∈ (o.route_task m task).updates,
      (u.result ≠ none ↔ (u.status = "completed" ∨ u.status = "failed"))) ∧
    (o.route_task m task).updates.map Task.status
      = ["processing", (o.route_task m task).task.status] ∧
    ((o.route_task m task).task.status = "completed" ∨
      (o.route_task m task).task.status = "failed") := by
  by_cases ht1 : task.task_type = "rag"
  · cases hr : o.rag_search task.description <;>
      simp [Orchestrator.route_task, ht1, hr, h2]
  · by_cases ht2 : task.task_type = "agent"
    · cases hr : o.agent_execute { task with task_type := "agent", status := "processing", result := none } <;>
        simp [Orchestrator.route_task, ht1, ht2, hr, h2]
    · simp [Orchestrator.route_task, ht1, ht2, h2]

/-- Witness for C6 on a pending rag task routed to a successful
resolver. -/
theorem claim_C6_witness :
    sampleTask.status = "pending" ∧ sampleTask.result = none ∧
    (((Orchestrator.mk (fun _ => Except.ok "ANSWER") (fun _ => Except.ok "done")).route_task
        sampleManager sampleTask).updates.map Task.status
      = ["processing",
          ((Orchestrator.mk (fun _ => Except.ok "ANSWER") (fun _ => Except.ok "done")).route_task
            sampleManager sampleTask).task.status]) :=
  ⟨rfl, rfl,
    (claim_C6_task_lifecycle
      (Orchestrator.mk (fun _ => Except.ok "ANSWER") (fun _ => Except.ok "done"))
      sampleManager sampleTask rfl rfl).2.1⟩

/-- Claim C7: with a persistence collaborator configured,
add_transcript_entry schedules (never runs inline) an auto-save exactly
when the new transcript length is a multiple of the auto-save threshold;
the appended in-memory transcript is the same whatever the outcome of the
persistence write (so a failed save changes nothing and never blocks the
append), and the scheduled save catches a write failure, returning none
instead of raising. -/
theorem claim_C7_auto_save_scheduling
    (m : StateManager) (entry : TranscriptEntry) (ts : TranscriptStorage)
    (hst : m.transcript_storage = some ts) :
    (m.add_transcript_entry entry).manager.state.transcript
      = m.state.transcript ++ [entry] ∧
    ((m.add_transcript_entry entry).autoSaveScheduled = true ↔
      (m.state.transcript.length + 1) % m.auto_save_threshold = 0) ∧
    (∀ err, ts.writeOutcome = Except.error err →
      (m.add_transcript_entry entry).manager.auto_save_transcript_run = none) ∧
    (∀ err,
      ((({ m with
            transcript_storage := some { ts with writeOutcome := Except.error err } } : StateManager).add_transcript_entry
          entry).manager.state.transcript
        = m.state.transcript ++ [entry])) := by
  refine ⟨?_, ?_, ?_, ?_⟩
  · simp [StateManager.add_transcript_entry]
  · simp [StateManager.add_transcript_entry, hst]
  · intro err herr
    simp [StateManager.add_transcript_entry,
      StateManager.auto_save_transcript_run, hst,
      TranscriptStorage.auto_save_transcript,
      TranscriptStorage.save_transcript, herr]
  · intro err
    simp [StateManager.add_transcript_entry]

/-- Witness for C7: the fifth append on a manager with a failing storage
collaborator schedules an auto-save and the save returns none. -/
theorem claim_C7_witness :
    (({ sampleManager with
        state := { sampleManager.state with
          transcript := [sampleEntry, sampleEntry, sampleEntry, sampleEntry] }
        transcript_storage :=
          some { makeFilename := fun cid => "transcript_" ++ cid ++ ".txt"
                 writeOutcome := Except.error "disk full" } } : StateManager).transcript_storage
      = some { makeFilename := fun cid => "transcript_" ++ cid ++ ".txt"
               writeOutcome := Except.error "disk full" }) ∧
    (({ sampleManager with
        state := { sampleManager.state with
          transcript := [sampleEntry, sampleEntry, sampleEntry, sampleEntry] }
        transcript_storage :=
          some { makeFilename := fun cid => "transcript_" ++ cid ++ ".txt"
                 writeOutcome := Except.error "disk full" } } : StateManager).add_transcript_entry
        sampleEntry).autoSaveScheduled = true ∧
    (({ sampleManager with
        state := { sampleManager.state with
          transcript := [sampleEntry, sampleEntry, sampleEntry, sampleEntry] }
        transcript_storage :=
          some { makeFilename := fun cid => "transcript_" ++ cid ++ ".txt"
                 writeOutcome := Except.error "disk full" } } : StateManager).add_transcript_entry
        sampleEntry).manager.auto_save_transcript_run = none := by
  refine ⟨rfl, ?_, ?_⟩
  · exact ((claim_C7_auto_save_scheduling _ sampleEntry _ rfl).2.1).2 (by decide)
  · exact (claim_C7_auto_save_scheduling _ sampleEntry _ rfl).2.2.1 "disk full" rfl

/-- Counterexample for claim C8 as stated: on a manager with a
configured collaborator whose write succeeds but an empty transcript,
save_current_transcript returns a filename, not none — the source has no
empty-transcript check on the manual-save path. -/
theorem claim_C8_counterexample :
    ({ sampleManager with
        transcript_storage :=
          some { makeFilename := fun cid => "transcript_" ++ cid ++ ".txt"
                 writeOutcome := Except.ok () } } : StateManager).state.transcript = [] ∧
    ({ sampleManager with
        transcript_storage :=
          some { makeFilename := fun cid => "transcript_" ++ cid ++ ".txt"
                 writeOutcome := Except.ok () } } : StateManager).save_current_transcript
      = some "transcript_conv-1.txt" := by
  constructor
  · rfl
  · rfl

/-- Claim C8 amended: save_current_transcript returns none exactly when
no persistence collaborator is configured or the underlying write raises
(the error is caught and logged); otherwise — even on an empty
transcript — it performs the write and returns the filename the
collaborator produced. -/
theorem claim_C8_save_current_transcript
    (m : StateManager) :
    (m.transcript_storage = none → m.save_current_transcript = none) ∧
    (∀ ts err, m.transcript_storage = some ts →
      ts.writeOutcome = Except.error err →
      m.save_current_transcript = none) ∧
    (∀ ts, m.transcript_storage = some ts →
      ts.writeOutcome = Except.ok () →
      m.save_current_transcript
        = some (ts.makeFilename m.state.conversation_id)) := by
  refine ⟨?_, ?_, ?_⟩
  · intro h
    simp [StateManager.save_current_transcript, h]
  · intro ts err hts herr
    simp [StateManager.save_current_transcript, hts,
      TranscriptStorage.save_transcript, herr]
  · intro ts hts hok
    simp [StateManager.save_current_transcript, hts,
      TranscriptStorage.save_transcript, hok]

/-- Witness for amended C8: a configured collaborator with a succeeding
write on an empty transcript yields the produced filename. -/
theorem claim_C8_witness :
    (({ sampleManager with
        transcript_storage :=
          some { makeFilename := fun cid => "transcript_" ++ cid ++ ".txt"
                 writeOutcome := Except.ok () } } : StateManager).transcript_storage
      = some { makeFilename := fun cid => "transcript_" ++ cid ++ ".txt"
               writeOutcome := Except.ok () }) ∧
    ({ sampleManager with
        transcript_storage :=
          some { makeFilename := fun cid => "transcript_" ++ cid ++ ".txt"
                 writeOutcome := Except.ok () } } : StateManager).save_current_transcript
      = some ((fun cid => "transcript_" ++ cid ++ ".txt") "conv-1") :=
  ⟨rfl,
    (claim_C8_save_current_transcript _).2.2
      { makeFilename := fun cid => "transcript_" ++ cid ++ ".txt"
        writeOutcome := Except.ok () } rfl rfl⟩

/-- Reading a heap cell right after writing it yields the written list. -/
theorem getD_set_self {α : Type} (l : List α) (i : Nat) (x d : α)
    (h : i < l.length) : (l.set i x)[i]?.getD d = x := by
  rw [List.getElem?_set_eq_of_lt x h]
  rfl

/-- A sample manager in the reference model: empty transcript cell 0,
empty history cell 0. -/
def sampleRefManager : RefStateManager :=
  { heap := { tlists := [[]], hlists := [[]] }
    state := { conversation_id := "conv-1", transcriptRef := 0,
               current_task := none, taskHistoryRef := 0 } }

/-- Counterexample for claim C2 as stated: get_state returns
model_copy(), a shallow copy sharing the transcript list with the live
state, so an append performed after the snapshot was taken changes the
transcript seen through the snapshot — snapshots from get_state are not
deep, independent copies. -/
theorem claim_C2_counterexample :
    (sampleRefManager.add_transcript_entry sampleEntry).heap.transcriptView
        sampleRefManager.get_state
      ≠ sampleRefManager.heap.transcriptView sampleRefManager.get_state := by
  decide

/-- Claim C2 amended: transcript snapshots returned by get_transcript
are detached copies — the returned value is the pre-mutation contents
and later mutations only produce different values; but a get_state
snapshot shares its transcript and task-history lists with the live
state (pydantic model_copy is shallow), so a later append shows up in
the earlier snapshot, a later clear empties it, and a later terminal
update_task grows its task history; only the scalar current_task field
of the snapshot is detached. -/
theorem claim_C2_snapshot_sharing
    (m : RefStateManager) (entry : TranscriptEntry) (task : Task)
    (newId : String)
    (ht : m.state.transcriptRef < m.heap.tlists.length)
    (hh : m.state.taskHistoryRef < m.heap.hlists.length)
    (hterm : task.status = "completed" ∨ task.status = "failed") :
    (m.add_transcript_entry entry).get_transcript
      = m.get_transcript ++ [entry] ∧
    (m.add_transcript_entry entry).heap.transcriptView m.get_state
      = m.heap.transcriptView m.get_state ++ [entry] ∧
    (m.clear_transcript newId).heap.transcriptView m.get_state = [] ∧
    (m.update_task task).heap.historyView m.get_state
      = m.heap.historyView m.get_state ++ [task] ∧
    (m.update_task task).state.current_task = none ∧
    m.get_state.current_task = m.state.current_task := by
  refine ⟨?_, ?_, ?_, ?_, ?_, rfl⟩
  · simp only [RefStateManager.add_transcript_entry,
      RefStateManager.get_transcript, RefHeap.transcriptView,
      List.getD_eq_getElem?_getD]
    exact getD_set_self _ _ _ _ ht
  · simp only [RefStateManager.add_transcript_entry,
      RefStateManager.get_state, RefAppState.model_copy,
      RefHeap.transcriptView, List.getD_eq_getElem?_getD]
    exact getD_set_self _ _ _ _ ht
  · simp only [RefStateManager.clear_transcript, RefStateManager.get_state,
      RefAppState.model_copy, RefHeap.transcriptView,
      List.getD_eq_getElem?_getD]
    exact getD_set_self _ _ _ _ ht
  · rcases hterm with h | h <;>
      · simp only [RefStateManager.update_task, RefStateManager.get_state,
          RefAppState.model_copy, RefHeap.historyView, h,
          List.getD_eq_getElem?_getD]
        simp only [String.reduceEq, or_true, true_or, or_false, false_or,
          if_true, reduceIte]
        exact getD_set_self _ _ _ _ hh
  · rcases hterm with h | h <;> simp [RefStateManager.update_task, h]

/-- Witness for amended C2 at the sample reference manager. -/
theorem claim_C2_witness :
    sampleRefManager.state.transcriptRef
        < sampleRefManager.heap.tlists.length ∧
    sampleRefManager.state.taskHistoryRef
        < sampleRefManager.heap.hlists.length ∧
    (({ sampleTask with status := "completed" } : Task).status = "completed" ∨
      ({ sampleTask with status := "completed" } : Task).status = "failed") ∧
    ((sampleRefManager.add_transcript_entry sampleEntry).heap.transcriptView
        sampleRefManager.get_state
      = sampleRefManager.heap.transcriptView sampleRefManager.get_state
          ++ [sampleEntry]) ∧
    ((sampleRefManager.update_task
        { sampleTask with status := "completed" }).heap.historyView
        sampleRefManager.get_state
      = sampleRefManager.heap.historyView sampleRefManager.get_state
          ++ [{ sampleTask with status := "completed" }]) :=
  ⟨by decide, by decide, Or.inl rfl,
    (claim_C2_snapshot_sharing sampleRefManager sampleEntry
      { sampleTask with status := "completed" } "conv-2"
      (by decide) (by decide) (Or.inl rfl)).2.1,
    (claim_C2_snapshot_sharing sampleRefManager sampleEntry
      { sampleTask with status := "completed" } "conv-2"
      (by decide) (by decide) (Or.inl rfl)).2.2.2.1⟩

/-- The notification loop processes a decomposed listener list
position-by-position: the event of each listener depends only on that
listener and the state, never on what the earlier listeners did. -/
theorem notifyListenersSync_append (pre post : List Listener)
    (l : Listener) (s : AppState) :
    notifyListenersSync (pre ++ l :: post) s
      = notifyListenersSync pre s
          ++ notifyOne s l :: notifyListenersSync post s := by
  induction pre with
  | nil => rfl
  | cons p ps ih => simp [notifyListenersSync, ih]

/-- A listener that is not a coroutine function is actually invoked: its
event is a real invocation (normal return, or exception caught and
logged), never a skip. -/
theorem notifyOne_sync_isInvocation (s : AppState) (l : Listener)
    (hsync : l.isCoroutineFunction = false) :
    (notifyOne s l).isInvocation = true := by
  simp only [notifyOne, hsync, Bool.false_eq_true, if_false]
  cases l.call s <;> rfl

/-- Counterexample for claim C9 as stated: a registered listener that is
a coroutine function is skipped by the sync notifier — its event is not
an invocation — so not every registered listener is invoked on a
mutation. -/
theorem claim_C9_counterexample :
    ({ sampleManager with
        listeners := [{ isCoroutineFunction := true
                        call := fun _ => Except.ok () }] } : StateManager).listeners.length = 1 ∧
    (({ sampleManager with
        listeners := [{ isCoroutineFunction := true
                        call := fun _ => Except.ok () }] } : StateManager).update_task
        sampleTask).events.filter NotifyEvent.isInvocation = [] := by
  constructor
  · rfl
  · rfl

/-- Claim C9 amended: for every registered listener that is not a
coroutine function (the sync notifier skips coroutine listeners), each
mutating operation — add_transcript_entry, update_task and
clear_transcript — invokes it synchronously with the new state; a
raised exception becomes a logged per-listener event, the listeners
before and after it are processed exactly as if it had not failed, and
the mutation itself is oblivious to every listener outcome. -/
theorem claim_C9_listener_isolation
    (m : StateManager) (pre post : List Listener) (l : Listener)
    (hl : m.listeners = pre ++ l :: post)
    (hsync : l.isCoroutineFunction = false) :
    (∀ task,
      (m.update_task task).events
        = notifyListenersSync pre (m.update_task task).manager.state
            ++ notifyOne (m.update_task task).manager.state l
            :: notifyListenersSync post (m.update_task task).manager.state ∧
      (notifyOne (m.update_task task).manager.state l).isInvocation = true) ∧
    (∀ entry,
      (m.add_transcript_entry entry).events
        = notifyListenersSync pre (m.add_transcript_entry entry).manager.state
            ++ notifyOne (m.add_transcript_entry entry).manager.state l
            :: notifyListenersSync post (m.add_transcript_entry entry).manager.state ∧
      (notifyOne (m.add_transcript_entry entry).manager.state l).isInvocation = true) ∧
    (∀ newId,
      (m.clear_transcript newId).events
        = notifyListenersSync pre (m.clear_transcript newId).manager.state
            ++ notifyOne (m.clear_transcript newId).manager.state l
            :: notifyListenersSync post (m.clear_transcript newId).manager.state ∧
      (notifyOne (m.clear_transcript newId).manager.state l).isInvocation = true) ∧
    (∀ task ls2,
      (({ m with listeners := ls2 } : StateManager).update_task task).manager.state
        = (m.update_task task).manager.state) := by
  refine ⟨?_, ?_, ?_, ?_⟩
  · intro task
    refine ⟨?_, notifyOne_sync_isInvocation _ l hsync⟩
    simp only [StateManager.update_task, hl]
    exact notifyListenersSync_append pre post l _
  · intro entry
    refine ⟨?_, notifyOne_sync_isInvocation _ l hsync⟩
    simp only [StateManager.add_transcript_entry, hl]
    exact notifyListenersSync_append pre post l _
  · intro newId
    refine ⟨?_, notifyOne_sync_isInvocation _ l hsync⟩
    simp only [StateManager.clear_transcript, hl]
    exact notifyListenersSync_append pre post l _
  · intro task ls2
    simp [StateManager.update_task]

/-- Witness for amended C9: one failing listener between two others; the
middle listener raises, yet all three produce their own events on a
concrete update. -/
theorem claim_C9_witness :
    (({ sampleManager with
        listeners :=
          [{ isCoroutineFunction := false, call := fun _ => Except.ok () },
           { isCoroutineFunction := false, call := fun _ => Except.error "boom" },
           { isCoroutineFunction := false, call := fun _ => Except.ok () }] } : StateManager).listeners
      = [{ isCoroutineFunction := false, call := fun _ => Except.ok () }]
          ++ ({ isCoroutineFunction := false, call := fun _ => Except.error "boom" } : Listener)
          :: [{ isCoroutineFunction := false, call := fun _ => Except.ok () }]) ∧
    (({ isCoroutineFunction := false, call := fun _ => Except.error "boom" } : Listener).isCoroutineFunction
      = false) ∧
    ((({ sampleManager with
        listeners :=
          [{ isCoroutineFunction := false, call := fun _ => Except.ok () },
           { isCoroutineFunction := false, call := fun _ => Except.error "boom" },
           { isCoroutineFunction := false, call := fun _ => Except.ok () }] } : StateManager).update_task
        sampleTask).events
      = [NotifyEvent.ok, NotifyEvent.logged ("Error notifying listener: " ++ "boom"),
         NotifyEvent.ok]) := by
  refine ⟨rfl, rfl, ?_⟩
  have h :=
    ((claim_C9_listener_isolation
      { sampleManager with
        listeners :=
          [{ isCoroutineFunction := false, call := fun _ => Except.ok () },
           { isCoroutineFunction := false, call := fun _ => Except.error "boom" },
           { isCoroutineFunction := false, call := fun _ => Except.ok () }] }
      [{ isCoroutineFunction := false, call := fun _ => Except.ok () }]
      [{ isCoroutineFunction := false, call := fun _ => Except.ok () }]
      { isCoroutineFunction := false, call := fun _ => Except.error "boom" }
      rfl rfl).1 sampleTask).1
  rw [h]
  rfl

end CallSense
